import Mathlib

/- A verification development for the J.A.R.V.I.S. conversation-session
manager (jarvis.py): a shallow embedding of the persistence layer
(load_memory / save_memory), the model-call wrapper (call_model_api), the
startup history initialization and the submit handler (handle_send),
together with proofs of the specified properties. -/

namespace Jarvis

/-- JSON values, as produced by json.load and manipulated by the program.
Numbers are modelled as integers (the program never computes with them;
only their truthiness matters). -/
inductive Json where
  | null
  | bool (b : Bool)
  | num (n : Int)
  | str (s : String)
  | arr (elems : List Json)
  | obj (fields : List (String × Json))

/-- MAX_MEMORY_MESSAGES = 60  (keep the last N messages in memory). -/
def MAX_MEMORY_MESSAGES : Nat := 60

/-- Python slice conversation[-n:]: the last n elements (the whole list when
it has fewer than n elements). -/
def lastN (n : Nat) (l : List Json) : List Json := l.drop (l.length - n)

/-- The state of the memory file on disk: absent, present but unreadable or
not valid JSON (json.load raises), or present with parsed JSON content. -/
inductive Storage where
  | absent
  | unreadable
  | stored (j : Json)

/-- load_memory(): returns [] when the file is absent, unreadable, or its
content is not a JSON list; otherwise returns the parsed list. -/
def load_memory : Storage → List Json
  | .absent => []
  | .unreadable => []
  | .stored (Json.arr elems) => elems
  | .stored _ => []

/-- save_memory(conversation): writes the conversation trimmed to its last
MAX_MEMORY_MESSAGES entries.  I/O failures are swallowed in the source; the
model describes the successful write. -/
def save_memory (conversation : List Json) : Storage :=
  Storage.stored (Json.arr (lastN MAX_MEMORY_MESSAGES conversation))

/-- save_memory as a state transformer on (in-memory conversation, disk):
`trimmed = conversation[-MAX_MEMORY_MESSAGES:]` binds a fresh name and only
the trimmed copy is written; the conversation variable is not reassigned. -/
def save_memory_run (conversation : List Json) : List Json × Storage :=
  let trimmed := lastN MAX_MEMORY_MESSAGES conversation
  (conversation, Storage.stored (Json.arr trimmed))

/-- Python dict lookup d.get(key) for a JSON object; none when the key is
missing or the receiver is not an object (callers that can raise use pyGet). -/
def jget : Json → String → Option Json
  | .obj fields, key => fields.lookup key
  | _, _ => none

/-- Python attribute access x.get(key): succeeds on a dict (None for a
missing key), raises AttributeError on any non-dict value. -/
def pyGet : Json → String → Except String (Option Json)
  | .obj fields, key => .ok (fields.lookup key)
  | _, _ => .error "AttributeError"

/-- j is a JSON object (a Python dict). -/
def isObjB : Json → Bool
  | .obj _ => true
  | _ => false

/-- The role field of a message object equals r (false when the key is
missing, non-string, or the value is not an object). -/
def roleIs (j : Json) (r : String) : Bool :=
  match jget j "role" with
  | some (.str s) => s == r
  | _ => false

/-- base_system_message: the fixed behavioral preamble. -/
def baseSystemMessage : Json :=
  .obj [("role", .str "system"),
        ("content", .str ("You are J.A.R.V.I.S., a precise, technical AI assistant. " ++
          "You help with coding, Linux, networking, and general questions. " ++
          "Be clear and concise. You have a long-term memory file that may " ++
          "contain facts the user previously told you; you can use them when helpful."))]

/-- SessionStore.load: load_memory followed by the preamble-repair step of
main (lines 130-131): when the loaded list is non-empty and its first
element does not carry role "system", the default preamble is inserted at
index 0.  `loaded[0].get("role")` raises AttributeError when the first
element is not a dict; the error is not caught. -/
def loadAndRepair (s : Storage) : Except String (List Json) :=
  match load_memory s with
  | [] => .ok []
  | first :: rest =>
    match pyGet first "role" with
    | .error e => .error e
    | .ok (some (.str r)) =>
      if r == "system" then .ok (first :: rest)
      else .ok (baseSystemMessage :: first :: rest)
    | .ok _ => .ok (baseSystemMessage :: first :: rest)

/-- Startup initialization (main, lines 126-132): an empty load yields the
fresh one-element history [base_system_message]; otherwise the repaired
loaded history is used. -/
def initConversation (s : Storage) : Except String (List Json) :=
  match load_memory s with
  | [] => .ok [baseSystemMessage]
  | _ :: _ => loadAndRepair s

/-- The error notice built in the except-branch of call_model_api. -/
def errorNotice (detail : String) : String :=
  "J.A.R.V.I.S.: Error talking to the local model: " ++ detail

/-- The notice returned when the model reply has no usable content. -/
def emptyNotice : String :=
  "J.A.R.V.I.S.: Local model returned an empty or unexpected response."

/-- Outcome of the HTTP exchange with the local model: transportError
covers a raised exception before a parsed body exists (connection failure,
timeout, raise_for_status on a non-success status, or a body that fails to
parse as JSON); response carries a parsed JSON body. -/
inductive ApiOutcome where
  | transportError (detail : String)
  | response (body : Json)

/-- Python truthiness of a JSON value (`if content:`). -/
def truthy : Json → Bool
  | .null => false
  | .bool b => b
  | .num n => n != 0
  | .str s => s != ""
  | .arr elems => !elems.isEmpty
  | .obj fields => !fields.isEmpty

/-- The request body sent to the local endpoint. -/
def requestBody (messages : List Json) : Json :=
  .obj [("model", .str "llama3.2"),
        ("messages", .arr messages),
        ("stream", .bool false)]

/-- call_model_api(messages): extracts data.get("message", {}).get("content", "")
from the parsed body and returns it when truthy, the empty-response notice
when falsy; every exception (transport, status, parse, or an AttributeError
from .get on a non-dict) is caught and turned into the error notice. -/
def call_model_api (messages : List Json) (outcome : ApiOutcome) : Json :=
  let _body := requestBody messages
  match outcome with
  | .transportError e => .str (errorNotice e)
  | .response data =>
    match pyGet data "message" with
    | .error e => .str (errorNotice e)
    | .ok m =>
      let msg := m.getD (Json.obj [])
      match pyGet msg "content" with
      | .error e => .str (errorNotice e)
      | .ok c =>
        let content := c.getD (Json.str "")
        if truthy content then content else .str emptyNotice

/-- The ASCII whitespace characters stripped by Python str.strip(). -/
def isPySpace (c : Char) : Bool :=
  c == ' ' || c == '\t' || c == '\n' || c == '\r' || c == '\x0b' || c == '\x0c'

/-- Python str.strip(): remove leading and trailing whitespace. -/
def pyStrip (s : String) : String :=
  String.mk (((s.toList.dropWhile isPySpace).reverse.dropWhile isPySpace).reverse)

/-- A user-role message object as appended by handle_send. -/
def userMsg (t : String) : Json :=
  .obj [("role", .str "user"), ("content", .str t)]

/-- An assistant-role message object as appended by handle_send. -/
def assistantMsg (c : Json) : Json :=
  .obj [("role", .str "assistant"), ("content", c)]

/-- The mutable state handle_send touches: the conversation list, the
memory file, the text field value and the two disabled flags. -/
structure AppState where
  conversation : List Json
  storage : Storage
  inputValue : String
  inputDisabled : Bool
  sendDisabled : Bool

/-- Observable effects emitted by handle_send, in program order. -/
inductive Effect where
  | renderOutbound (text : String)
  | renderInbound (content : Json)
  | saveStore (conversation : List Json)
  | apiCall (messages : List Json)
  | setInputDisabled (b : Bool)

/-- handle_send up to the blocking model call (lines 186-203): strip the
input; return None on empty text; otherwise render the user bubble, clear
the input, append the user message, save, and disable the input controls.
Returns the stripped text, the state as it stands while the model call is
in flight, and the effects emitted so far. -/
def handle_send_pre (s : AppState) : Option (String × AppState × List Effect) :=
  let user_text := pyStrip s.inputValue
  if user_text == "" then none
  else
    let conv1 := s.conversation ++ [userMsg user_text]
    some (user_text,
      { conversation := conv1
        storage := save_memory conv1
        inputValue := ""
        inputDisabled := true
        sendDisabled := true },
      [Effect.renderOutbound user_text, Effect.saveStore conv1,
       Effect.setInputDisabled true])

/-- handle_send after the model call returns (lines 209-217): append the
assistant reply, save, render it, and re-enable the input controls. -/
def handle_send_post (reply : Json) (s : AppState) : AppState × List Effect :=
  let conv2 := s.conversation ++ [assistantMsg reply]
  ({ conversation := conv2
     storage := save_memory conv2
     inputValue := s.inputValue
     inputDisabled := false
     sendDisabled := false },
   [Effect.saveStore conv2, Effect.renderInbound reply,
    Effect.setInputDisabled false])

/-- handle_send (lines 186-217), parameterized by the outcome of the one
model call it makes. -/
def handle_send (outcome : ApiOutcome) (s : AppState) : AppState × List Effect :=
  match handle_send_pre s with
  | none => (s, [])
  | some (_, s1, evs1) =>
    let reply := call_model_api s1.conversation outcome
    let (s2, evs2) := handle_send_post reply s1
    (s2, evs1 ++ Effect.apiCall s1.conversation :: evs2)

/-- The decodable load result claimed for a well-formed store: empty on
absence, corruption or non-list content; otherwise the stored list with the
default preamble inserted when the first element does not carry role
"system". -/
def expectedLoad : Storage → List Json
  | .stored (Json.arr (first :: rest)) =>
    if roleIs first "system" then first :: rest
    else baseSystemMessage :: first :: rest
  | _ => []

/-- The storage contents let the repair step of load run without raising:
any stored list is empty or starts with an object. -/
def firstElemOk : Storage → Bool
  | .stored (Json.arr (first :: _)) => isObjB first
  | _ => true

/-- The first element of the list carries role "system", or the list is
empty. -/
def headIsSystemOrEmpty : List Json → Bool
  | [] => true
  | first :: _ => roleIs first "system"

/-- The content call_model_api extracts on the success path: some c exactly
when the body is an object whose message field (defaulting to {}) is an
object with a truthy content value. -/
def extractedContent : ApiOutcome → Option Json
  | .transportError _ => none
  | .response data =>
    match data with
    | .obj fields =>
      match (fields.lookup "message").getD (Json.obj []) with
      | .obj mfields =>
        let content := (mfields.lookup "content").getD (Json.str "")
        if truthy content then some content else none
      | _ => none
    | _ => none

lemma lastN_of_le (l : List Json) (n : Nat) (h : l.length ≤ n) : lastN n l = l := by
  unfold lastN
  rw [Nat.sub_eq_zero_of_le h, List.drop_zero]

lemma length_lastN (l : List Json) (n : Nat) : (lastN n l).length = min l.length n := by
  unfold lastN
  rw [List.length_drop]
  omega

lemma mem_lastN_append (l : List Json) (x : Json) :
    x ∈ lastN MAX_MEMORY_MESSAGES (l ++ [x]) := by
  unfold lastN
  have hk : (l ++ [x]).length - MAX_MEMORY_MESSAGES ≤ l.length := by
    simp only [List.length_append, List.length_singleton, MAX_MEMORY_MESSAGES]
    omega
  rw [List.drop_append_of_le_length hk]
  simp

lemma loadAndRepair_cons (first : Json) (rest : List Json) (hobj : isObjB first = true) :
    loadAndRepair (.stored (.arr (first :: rest)))
      = .ok (if roleIs first "system" then first :: rest
             else baseSystemMessage :: first :: rest) := by
  rcases first with _ | b | n | s | es | fields
  · simp [isObjB] at hobj
  · simp [isObjB] at hobj
  · simp [isObjB] at hobj
  · simp [isObjB] at hobj
  · simp [isObjB] at hobj
  · cases hl : fields.lookup "role" with
    | none => simp [loadAndRepair, load_memory, pyGet, roleIs, jget, hl]
    | some v =>
      rcases v with _ | b2 | n2 | s2 | es2 | f2
      · simp [loadAndRepair, load_memory, pyGet, roleIs, jget, hl]
      · simp [loadAndRepair, load_memory, pyGet, roleIs, jget, hl]
      · simp [loadAndRepair, load_memory, pyGet, roleIs, jget, hl]
      · cases hs : s2 == "system" <;>
          simp [loadAndRepair, load_memory, pyGet, roleIs, jget, hl, hs]
      · simp [loadAndRepair, load_memory, pyGet, roleIs, jget, hl]
      · simp [loadAndRepair, load_memory, pyGet, roleIs, jget, hl]

lemma errorNotice_ne_empty (d : String) : errorNotice d ≠ "" := by
  unfold errorNotice
  intro h
  have hlen := congrArg String.length h
  rw [String.length_append] at hlen
  have h0 : ("" : String).length = 0 := rfl
  have h1 : (0:Nat) < "J.A.R.V.I.S.: Error talking to the local model: ".length := by decide
  omega

lemma call_model_api_of_none (messages : List Json) (o : ApiOutcome)
    (h : extractedContent o = none) :
    ∃ n : String, call_model_api messages o = .str n ∧ n ≠ ""
      ∧ ((∃ d, n = errorNotice d) ∨ n = emptyNotice) := by
  cases o with
  | transportError d =>
    exact ⟨errorNotice d, rfl, errorNotice_ne_empty d, Or.inl ⟨d, rfl⟩⟩
  | response data =>
    rcases data with _ | b | n | s | es | fields
    · exact ⟨errorNotice "AttributeError", rfl, errorNotice_ne_empty _, Or.inl ⟨_, rfl⟩⟩
    · exact ⟨errorNotice "AttributeError", rfl, errorNotice_ne_empty _, Or.inl ⟨_, rfl⟩⟩
    · exact ⟨errorNotice "AttributeError", rfl, errorNotice_ne_empty _, Or.inl ⟨_, rfl⟩⟩
    · exact ⟨errorNotice "AttributeError", rfl, errorNotice_ne_empty _, Or.inl ⟨_, rfl⟩⟩
    · exact ⟨errorNotice "AttributeError", rfl, errorNotice_ne_empty _, Or.inl ⟨_, rfl⟩⟩
    · cases hm : fields.lookup "message" with
      | none =>
        refine ⟨emptyNotice, ?_, by decide, Or.inr rfl⟩
        simp [call_model_api, pyGet, hm, truthy]
      | some v =>
        rcases v with _ | b2 | n2 | s2 | es2 | mfields
        · exact ⟨errorNotice "AttributeError", by simp [call_model_api, pyGet, hm],
                 errorNotice_ne_empty _, Or.inl ⟨_, rfl⟩⟩
        · exact ⟨errorNotice "AttributeError", by simp [call_model_api, pyGet, hm],
                 errorNotice_ne_empty _, Or.inl ⟨_, rfl⟩⟩
        · exact ⟨errorNotice "AttributeError", by simp [call_model_api, pyGet, hm],
                 errorNotice_ne_empty _, Or.inl ⟨_, rfl⟩⟩
        · exact ⟨errorNotice "AttributeError", by simp [call_model_api, pyGet, hm],
                 errorNotice_ne_empty _, Or.inl ⟨_, rfl⟩⟩
        · exact ⟨errorNotice "AttributeError", by simp [call_model_api, pyGet, hm],
                 errorNotice_ne_empty _, Or.inl ⟨_, rfl⟩⟩
        · cases hc : mfields.lookup "content" with
          | none =>
            refine ⟨emptyNotice, ?_, by decide, Or.inr rfl⟩
            simp [call_model_api, pyGet, hm, hc, truthy]
          | some cv =>
            cases ht : truthy cv with
            | true => simp [extractedContent, hm, hc, ht] at h
            | false =>
              refine ⟨emptyNotice, ?_, by decide, Or.inr rfl⟩
              simp [call_model_api, pyGet, hm, hc, ht]

/-- C1: Starting from an empty store, start() produces a history of length 1
containing only the system preamble; a subsequent submit("hello") whose
model call returns {message:{role:"assistant",content:"hi"}} leaves the
history [preamble, {user,"hello"}, {assistant,"hi"}] of length 3. -/
theorem c1_start_then_submit_hello :
    initConversation Storage.absent = Except.ok [baseSystemMessage]
    ∧ ([baseSystemMessage] : List Json).length = 1
    ∧ roleIs baseSystemMessage "system" = true
    ∧ (handle_send
        (ApiOutcome.response (Json.obj
          [("message", Json.obj [("role", Json.str "assistant"), ("content", Json.str "hi")])]))
        { conversation := [baseSystemMessage], storage := Storage.absent,
          inputValue := "hello", inputDisabled := false, sendDisabled := false }).1.conversation
        = [baseSystemMessage, userMsg "hello", assistantMsg (Json.str "hi")]
    ∧ [baseSystemMessage, userMsg "hello", assistantMsg (Json.str "hi")].length = 3 :=
  ⟨rfl, rfl, rfl, rfl, rfl⟩

/-- C2: while a submit is in flight (any state produced by the pre-call
phase of handle_send, which has already cleared and disabled the input
field), issuing a second submit is a no-op: the state, history and storage
are unchanged and no effect is emitted. -/
theorem c2_busy_submit_noop (s : AppState) (o2 : ApiOutcome)
    (r : String × AppState × List Effect)
    (h : handle_send_pre s = some r) :
    handle_send o2 r.2.1 = (r.2.1, []) := by
  simp only [handle_send_pre] at h
  split at h
  · exact absurd h (by simp)
  · have hr := Option.some.inj h
    subst hr
    rfl

/-- Witness for C2: re-issuing handle_send in the in-flight state reached
from a submit of "hello" changes nothing and emits nothing. -/
theorem c2_busy_submit_noop_witness :
    handle_send (ApiOutcome.transportError "late")
      { conversation := [userMsg "hello"],
        storage := Storage.stored (Json.arr [userMsg "hello"]),
        inputValue := "", inputDisabled := true, sendDisabled := true }
    = ({ conversation := [userMsg "hello"],
         storage := Storage.stored (Json.arr [userMsg "hello"]),
         inputValue := "", inputDisabled := true, sendDisabled := true }, []) :=
  c2_busy_submit_noop
    { conversation := [], storage := Storage.absent, inputValue := "hello",
      inputDisabled := false, sendDisabled := false }
    (ApiOutcome.transportError "late")
    ("hello",
      { conversation := [userMsg "hello"],
        storage := Storage.stored (Json.arr [userMsg "hello"]),
        inputValue := "", inputDisabled := true, sendDisabled := true },
      [Effect.renderOutbound "hello", Effect.saveStore [userMsg "hello"],
       Effect.setInputDisabled true])
    rfl

/-- C3: save then load round-trips: for a valid history (all entries are
objects, the head carries role "system" when non-empty, and no other entry
carries role "system"), loading right after saving yields the history
truncated to its last MAX_MEMORY_MESSAGES entries, with the default
preamble re-inserted at index 0 exactly when the truncation dropped it. -/
theorem c3_save_load_round_trip (H : List Json)
    (hobj : H.all isObjB = true)
    (hhead : headIsSystemOrEmpty H = true)
    (htail : H.tail.all (fun j => !(roleIs j "system")) = true) :
    loadAndRepair (save_memory H)
      = .ok (if H.length ≤ MAX_MEMORY_MESSAGES then H
             else baseSystemMessage :: lastN MAX_MEMORY_MESSAGES H) := by
  by_cases hle : H.length ≤ MAX_MEMORY_MESSAGES
  · rw [if_pos hle]
    unfold save_memory
    rw [lastN_of_le H MAX_MEMORY_MESSAGES hle]
    cases H with
    | nil => rfl
    | cons f rest =>
      have hsys : roleIs f "system" = true := hhead
      have hobjf : isObjB f = true :=
        List.all_eq_true.mp hobj f (List.mem_cons_self f rest)
      rw [loadAndRepair_cons f rest hobjf, hsys]
      simp
  · rw [if_neg hle]
    have hgt : MAX_MEMORY_MESSAGES < H.length := Nat.lt_of_not_le hle
    have hpos : 0 < MAX_MEMORY_MESSAGES := by decide
    have hlen : (lastN MAX_MEMORY_MESSAGES H).length = MAX_MEMORY_MESSAGES := by
      rw [length_lastN]; omega
    cases htr : lastN MAX_MEMORY_MESSAGES H with
    | nil => rw [htr] at hlen; simp at hlen; omega
    | cons f rest =>
      have hdrop : lastN MAX_MEMORY_MESSAGES H
          = H.tail.drop (H.length - MAX_MEMORY_MESSAGES - 1) := by
        rw [← List.drop_one, List.drop_drop]
        unfold lastN
        congr 1
        omega
      have hsuf : List.IsSuffix (f :: rest) H.tail := by
        rw [← htr, hdrop]; exact List.drop_suffix _ _
      have hmem_tail : f ∈ H.tail := hsuf.subset (List.mem_cons_self f rest)
      have hsuf2 : List.IsSuffix (f :: rest) H := by
        rw [← htr]; exact List.drop_suffix _ _
      have hmem : f ∈ H := hsuf2.subset (List.mem_cons_self f rest)
      have hobjf : isObjB f = true := List.all_eq_true.mp hobj f hmem
      have hrole : roleIs f "system" = false := by
        have := List.all_eq_true.mp htail f hmem_tail
        simpa using this
      unfold save_memory
      rw [htr, loadAndRepair_cons f rest hobjf, hrole]
      simp

/-- Witness for C3 at a 61-message history: the save drops the preamble and
the load re-inserts the default one in front of the retained last 60. -/
theorem c3_save_load_round_trip_witness :
    loadAndRepair (save_memory (baseSystemMessage :: List.replicate 60 (userMsg "x")))
      = .ok (if (baseSystemMessage :: List.replicate 60 (userMsg "x")).length
                ≤ MAX_MEMORY_MESSAGES
             then baseSystemMessage :: List.replicate 60 (userMsg "x")
             else baseSystemMessage
               :: lastN MAX_MEMORY_MESSAGES
                    (baseSystemMessage :: List.replicate 60 (userMsg "x"))) :=
  c3_save_load_round_trip (baseSystemMessage :: List.replicate 60 (userMsg "x"))
    rfl rfl rfl

/-- C4 counterexample: a stored JSON sequence whose first element is a
string makes the load path raise AttributeError instead of returning, so
load is not total over all JSON sequences. -/
theorem c4_load_raises_counterexample :
    loadAndRepair (Storage.stored (Json.arr [Json.str "x"])) = Except.error "AttributeError" :=
  rfl

/-- C4 amended: for every storage state whose stored JSON sequence (if any)
is empty or begins with an object, load never raises: it returns the empty
history on absence, corruption or non-sequence content, and otherwise the
stored sequence with the default preamble inserted at index 0 whenever its
first element does not carry role "system". -/
theorem c4_load_total_on_object_first (s : Storage) (h : firstElemOk s = true) :
    loadAndRepair s = Except.ok (expectedLoad s) := by
  cases s with
  | absent => rfl
  | unreadable => rfl
  | stored j =>
    rcases j with _ | b | n | st | es | fields
    · rfl
    · rfl
    · rfl
    · rfl
    · cases es with
      | nil => rfl
      | cons f rest =>
        have hobjf : isObjB f = true := h
        rw [loadAndRepair_cons f rest hobjf]
        rfl
    · rfl

/-- Witness for C4 (amended) at a stored one-user-message sequence: the
preamble is inserted and no error is raised. -/
theorem c4_load_total_on_object_first_witness :
    loadAndRepair (Storage.stored (Json.arr [userMsg "a"]))
      = Except.ok (expectedLoad (Storage.stored (Json.arr [userMsg "a"]))) :=
  c4_load_total_on_object_first (Storage.stored (Json.arr [userMsg "a"])) rfl

/-- C5: for every outcome on which the model call does not yield truthy
content (transport/timeout/status failure, non-object body or message
field, missing or empty content), a submit with valid input still
completes: the assistant message appended after the user message carries a
non-empty notice text (the standard error notice or the standard
empty-response notice), and the user message is in the history. -/
theorem c5_failure_containment (o : ApiOutcome) (s : AppState)
    (hval : (pyStrip s.inputValue == "") = false)
    (hbad : extractedContent o = none) :
    ∃ n : String, n ≠ ""
      ∧ (handle_send o s).1.conversation
          = s.conversation ++ [userMsg (pyStrip s.inputValue), assistantMsg (Json.str n)]
      ∧ ((∃ d, n = errorNotice d) ∨ n = emptyNotice)
      ∧ userMsg (pyStrip s.inputValue) ∈ (handle_send o s).1.conversation := by
  obtain ⟨n, hcall, hne, hcase⟩ :=
    call_model_api_of_none (s.conversation ++ [userMsg (pyStrip s.inputValue)]) o hbad
  have hconv : (handle_send o s).1.conversation
      = s.conversation ++ [userMsg (pyStrip s.inputValue), assistantMsg (Json.str n)] := by
    simp [handle_send, handle_send_pre, handle_send_post, hval, hcall]
  refine ⟨n, hne, hconv, hcase, ?_⟩
  rw [hconv]
  simp

/-- Witness for C5: a timed-out call on submit("ping") from a fresh state. -/
theorem c5_failure_containment_witness :
    ∃ n : String, n ≠ ""
      ∧ (handle_send (ApiOutcome.transportError "timeout")
          { conversation := [], storage := Storage.absent, inputValue := "ping",
            inputDisabled := false, sendDisabled := false }).1.conversation
          = [] ++ [userMsg (pyStrip "ping"), assistantMsg (Json.str n)]
      ∧ ((∃ d, n = errorNotice d) ∨ n = emptyNotice)
      ∧ userMsg (pyStrip "ping")
          ∈ (handle_send (ApiOutcome.transportError "timeout")
              { conversation := [], storage := Storage.absent, inputValue := "ping",
                inputDisabled := false, sendDisabled := false }).1.conversation :=
  c5_failure_containment (ApiOutcome.transportError "timeout")
    { conversation := [], storage := Storage.absent, inputValue := "ping",
      inputDisabled := false, sendDisabled := false }
    rfl rfl

/-- C7: on a valid submit, the effect trace starts with rendering the user
text, saving the history already extended by the user message, disabling
the input, and only then the model call; the saved (trimmed) sequence
contains the user message, so it is persisted before the call starts. -/
theorem c7_user_message_saved_before_call (o : ApiOutcome) (s : AppState)
    (hval : (pyStrip s.inputValue == "") = false) :
    (handle_send o s).2.take 4
        = [Effect.renderOutbound (pyStrip s.inputValue),
           Effect.saveStore (s.conversation ++ [userMsg (pyStrip s.inputValue)]),
           Effect.setInputDisabled true,
           Effect.apiCall (s.conversation ++ [userMsg (pyStrip s.inputValue)])]
    ∧ userMsg (pyStrip s.inputValue)
        ∈ lastN MAX_MEMORY_MESSAGES (s.conversation ++ [userMsg (pyStrip s.inputValue)]) := by
  constructor
  · simp [handle_send, handle_send_pre, handle_send_post, hval]
  · exact mem_lastN_append s.conversation (userMsg (pyStrip s.inputValue))

/-- Witness for C7 at submit("hi") from a fresh state. -/
theorem c7_user_message_saved_before_call_witness :
    (handle_send (ApiOutcome.transportError "down")
        { conversation := [], storage := Storage.absent, inputValue := "hi",
          inputDisabled := false, sendDisabled := false }).2.take 4
        = [Effect.renderOutbound (pyStrip "hi"),
           Effect.saveStore ([] ++ [userMsg (pyStrip "hi")]),
           Effect.setInputDisabled true,
           Effect.apiCall ([] ++ [userMsg (pyStrip "hi")])]
    ∧ userMsg (pyStrip "hi")
        ∈ lastN MAX_MEMORY_MESSAGES ([] ++ [userMsg (pyStrip "hi")]) :=
  c7_user_message_saved_before_call (ApiOutcome.transportError "down")
    { conversation := [], storage := Storage.absent, inputValue := "hi",
      inputDisabled := false, sendDisabled := false }
    rfl

/-- C10: every completed submit with valid input appends exactly two
messages, first the user message carrying the trimmed input and then an
assistant message, growing the history by exactly 2 whatever the outcome
of the model call. -/
theorem c10_each_turn_appends_two (o : ApiOutcome) (s : AppState)
    (hval : (pyStrip s.inputValue == "") = false) :
    (handle_send o s).1.conversation
        = s.conversation
          ++ [userMsg (pyStrip s.inputValue),
              assistantMsg (call_model_api
                (s.conversation ++ [userMsg (pyStrip s.inputValue)]) o)]
    ∧ (handle_send o s).1.conversation.length = s.conversation.length + 2 := by
  have hconv : (handle_send o s).1.conversation
      = s.conversation
        ++ [userMsg (pyStrip s.inputValue),
            assistantMsg (call_model_api
              (s.conversation ++ [userMsg (pyStrip s.inputValue)]) o)] := by
    simp [handle_send, handle_send_pre, handle_send_post, hval]
  refine ⟨hconv, ?_⟩
  rw [hconv]
  simp

/-- Witness for C10 at a submit of " hi " (trimmed to "hi") whose call
returns an empty JSON object, exercising the empty-reply branch. -/
theorem c10_each_turn_appends_two_witness :
    (handle_send (ApiOutcome.response (Json.obj []))
        { conversation := [baseSystemMessage], storage := Storage.absent,
          inputValue := " hi ", inputDisabled := false, sendDisabled := false }).1.conversation
        = [baseSystemMessage]
          ++ [userMsg (pyStrip " hi "),
              assistantMsg (call_model_api
                ([baseSystemMessage] ++ [userMsg (pyStrip " hi ")])
                (ApiOutcome.response (Json.obj [])))]
    ∧ (handle_send (ApiOutcome.response (Json.obj []))
        { conversation := [baseSystemMessage], storage := Storage.absent,
          inputValue := " hi ", inputDisabled := false, sendDisabled := false }).1.conversation.length
        = ([baseSystemMessage] : List Json).length + 2 :=
  c10_each_turn_appends_two (ApiOutcome.response (Json.obj []))
    { conversation := [baseSystemMessage], storage := Storage.absent,
      inputValue := " hi ", inputDisabled := false, sendDisabled := false }
    rfl

/-- C6: save_memory writes a stored sequence of length at most
MAX_MEMORY_MESSAGES, consisting of the last MAX_MEMORY_MESSAGES entries of
the conversation (a suffix, so relative order is preserved). -/
theorem c6_retention_bound (conversation : List Json) :
    ∃ l, save_memory conversation = Storage.stored (Json.arr l)
      ∧ l.length ≤ MAX_MEMORY_MESSAGES
      ∧ List.IsSuffix l conversation
      ∧ l.length = min conversation.length MAX_MEMORY_MESSAGES := by
  refine ⟨lastN MAX_MEMORY_MESSAGES conversation, rfl, ?_, List.drop_suffix _ _, ?_⟩
  · rw [length_lastN]; omega
  · exact length_lastN conversation MAX_MEMORY_MESSAGES

/-- C8: when the input text strips to the empty string, handle_send is a
no-op: the state is unchanged and no effect is emitted. -/
theorem c8_blank_input_noop (o : ApiOutcome) (s : AppState)
    (h : pyStrip s.inputValue = "") :
    handle_send o s = (s, []) := by
  simp [handle_send, handle_send_pre, h]

/-- Witness for C8 at the whitespace-only input "   ". -/
theorem c8_blank_input_noop_witness :
    handle_send (ApiOutcome.transportError "x")
      { conversation := [baseSystemMessage], storage := Storage.absent,
        inputValue := "   ", inputDisabled := false, sendDisabled := false }
    = ({ conversation := [baseSystemMessage], storage := Storage.absent,
         inputValue := "   ", inputDisabled := false, sendDisabled := false }, []) :=
  c8_blank_input_noop (ApiOutcome.transportError "x") _ rfl

/-- C9: save_memory leaves the in-memory conversation unchanged; the
truncation to the last MAX_MEMORY_MESSAGES entries applies only to the
stored copy. -/
theorem c9_save_preserves_in_memory_history (conversation : List Json) :
    (save_memory_run conversation).1 = conversation
    ∧ (save_memory_run conversation).2
        = Storage.stored (Json.arr (lastN MAX_MEMORY_MESSAGES conversation)) :=
  ⟨rfl, rfl⟩

end Jarvis
